import Mathlib

/-!
Verification of the cycloid driver core (src/drive/driver.cc) against its
natural-language specification.

Floating-point values are modelled as rationals (exact arithmetic); machine
byte layout is modelled as lists of byte values (Nat), with the 4-byte
in-memory representation of a float abstracted as an encoding function
`enc : ℚ → List Nat` producing 4 bytes, since the serializer only ever
memcpy's those raw bytes.
-/

/-- 3-component vector of rationals, modelling Eigen::Vector3f. -/
structure V3 where
  x : ℚ
  y : ℚ
  z : ℚ
deriving DecidableEq

def V3.zero : V3 := ⟨0, 0, 0⟩

def V3.add (a b : V3) : V3 := ⟨a.x + b.x, a.y + b.y, a.z + b.z⟩

def V3.sub (a b : V3) : V3 := ⟨a.x - b.x, a.y - b.y, a.z - b.z⟩

def V3.smul (c : ℚ) (a : V3) : V3 := ⟨c * a.x, c * a.y, c * a.z⟩

/-- Hardcoded home pose constants from driver.cc. -/
def CEILHOME_X : ℚ := -303/100

def CEILHOME_Y : ℚ := 73/100

def CEILHOME_THETA : ℚ := 0

/-- struct CarState from driver.cc: the shared vehicle-state snapshot. -/
structure CarState where
  accel : V3
  gyro : V3
  throttle : Int
  steering : Int
  wheel_dist : ℚ
  wheel_v : ℚ
  ceiltrack_pos : V3
deriving DecidableEq

/-- CarState::SetHome(): reset the ceiling-tracker pose to the home constants. -/
def CarState.SetHome (s : CarState) : CarState :=
  { s with ceiltrack_pos := ⟨CEILHOME_X, CEILHOME_Y, CEILHOME_THETA⟩ }

/-- CarState's constructor: zero everything, then SetHome(). -/
def CarState.init : CarState :=
  CarState.SetHome
    { accel := V3.zero, gyro := V3.zero, throttle := 0, steering := 0,
      wheel_dist := 0, wheel_v := 0, ceiltrack_pos := V3.zero }

/-- CarState::SerializedSize() from driver.cc (the source's exact formula). -/
def CarState.SerializedSize : Nat := 8 + 4 * 3 * 2 + 2 + 2 * 4

/-- Little-endian 4-byte encoding of a machine integer (memcpy of a 4-byte int). -/
def le32 (n : Nat) : List Nat :=
  [n % 256, n / 256 % 256, n / 65536 % 256, n / 16777216 % 256]

/-- Little-endian 2-byte encoding (memcpy of a uint16). -/
def le16 (n : Nat) : List Nat := [n % 256, n / 256 % 256]

/-- The in-memory byte of an int8_t (two's complement). -/
def int8Byte (t : Int) : Nat := (Int.emod t 256).toNat

/-- The 4 ASCII bytes of the tag "CSt1". -/
def cst1Tag : List Nat := [0x43, 0x53, 0x74, 0x31]

/-- CarState::Serialize from driver.cc: tag, 4-byte length, then throttle,
steering, accel[0..2], gyro[0..2], wheel_dist, wheel_v at fixed offsets.
`enc` gives the 4 in-memory bytes of a float value. -/
def CarState.Serialize (enc : ℚ → List Nat) (s : CarState) : List Nat :=
  cst1Tag ++ le32 CarState.SerializedSize ++
  [int8Byte s.throttle, int8Byte s.steering] ++
  enc s.accel.x ++ enc s.accel.y ++ enc s.accel.z ++
  enc s.gyro.x ++ enc s.gyro.y ++ enc s.gyro.z ++
  enc s.wheel_dist ++ enc s.wheel_v

/-- Extract `n` bytes at offset `off` of a byte list. -/
def fieldAt (bytes : List Nat) (off n : Nat) : List Nat :=
  (bytes.drop off).take n

/-- Value of a 4-byte little-endian length field. -/
def readLE32 (bs : List Nat) : Nat :=
  match bs with
  | [a, b, c, d] => a + 256 * b + 65536 * c + 16777216 * d
  | _ => 0

/-- The byte strings of the scalar fields a CSt1 record carries, in serialized
order: throttle, steering, the three accel components, the three gyro
components, wheel_dist, wheel_v. -/
def fieldChunks (enc : ℚ → List Nat) (s : CarState) : List (List Nat) :=
  [[int8Byte s.throttle], [int8Byte s.steering],
   enc s.accel.x, enc s.accel.y, enc s.accel.z,
   enc s.gyro.x, enc s.gyro.y, enc s.gyro.z,
   enc s.wheel_dist, enc s.wheel_v]

/-- Parse a CSt1 record by the documented chunk-header layout: check the 4-byte
tag and the 4-byte little-endian total length (inclusive of the 8-byte header),
then read the field byte strings at their fixed offsets. -/
def parseCSt1 (bytes : List Nat) : Option (List (List Nat)) :=
  if fieldAt bytes 0 4 = cst1Tag ∧ readLE32 (fieldAt bytes 4 4) = bytes.length then
    some [fieldAt bytes 8 1, fieldAt bytes 9 1,
          fieldAt bytes 10 4, fieldAt bytes 14 4, fieldAt bytes 18 4,
          fieldAt bytes 22 4, fieldAt bytes 26 4, fieldAt bytes 30 4,
          fieldAt bytes 34 4, fieldAt bytes 38 4]
  else none

/-- An entry handed to the flush thread / written to the output descriptor:
either a data buffer or the sentinel flush-and-close directive. -/
inductive FlushEntry where
  | data (fd : Nat) (bytes : List Nat)
  | close (fd : Nat)
deriving DecidableEq

/-- The Driver's mutable members that the modelled operations touch:
the shared car state, the low-pass-filtered gyro, the captured gyro bias,
the output descriptor (none models fd == -1), the frame counter and skip
count, and the log of everything written or queued to the output. -/
structure DriverState where
  carstate : CarState
  gyro_last : V3
  gyro_bias : V3
  output_fd : Option Nat
  frame : Nat
  frameskip : Nat
  writes : List FlushEntry
deriving DecidableEq

/-- Driver's constructor state: fd = -1, zero counters and biases,
a freshly constructed CarState. -/
def initState : DriverState :=
  { carstate := CarState.init, gyro_last := V3.zero, gyro_bias := V3.zero,
    output_fd := none, frame := 0, frameskip := 0, writes := [] }

/-- Driver::IsRecording(): output_fd_ != -1. -/
def IsRecording (st : DriverState) : Bool := st.output_fd.isSome

/-- Driver::StartRecording: record frameskip, reset the frame counter, take
the result of opening the destination (none models open() == -1); on failure
return false; on success immediately write the serialized-configuration
header and return true. `cfgHeader` stands for the bytes of
DriverConfig::Serialize, whose definition is outside this repository's
sources. -/
def StartRecording (openResult : Option Nat) (cfgHeader : List Nat) (fs : Nat)
    (st : DriverState) : Bool × DriverState :=
  let st1 := { st with frameskip := fs, frame := 0, output_fd := openResult }
  match openResult with
  | none => (false, st1)
  | some fd => (true, { st1 with writes := st1.writes ++ [FlushEntry.data fd cfgHeader] })

/-- Driver::StopRecording: if recording, enqueue the sentinel close entry and
mark recording disabled. -/
def StopRecording (st : DriverState) : DriverState :=
  match st.output_fd with
  | none => st
  | some fd => { st with writes := st.writes ++ [FlushEntry.close fd], output_fd := none }

/-- The 4 ASCII bytes of the tag "CYCF". -/
def cycfTag : List Nat := [0x43, 0x59, 0x43, 0x46]

/-- The 4 ASCII bytes of the tag "Y420". -/
def y420Tag : List Nat := [0x59, 0x34, 0x32, 0x30]

/-- Driver::QueueRecordingData from driver.cc: build one CYCF chunk holding
the 8-byte (seconds, microseconds) timestamp, the serialized car state, the
serialized controller state, and a Y420 chunk with a 2-byte width field (640)
followed by the raw camera buffer. `ctrlChunk` stands for the bytes of
DriverController::Serialize, whose definition is outside this repository's
sources; the code sizes the record with that chunk's own SerializedSize. -/
def QueueRecordingData (enc : ℚ → List Nat) (sec usec : Nat) (s : CarState)
    (ctrlChunk : List Nat) (buf : List Nat) : List Nat :=
  let yuvcklen : Nat := buf.length + 8 + 2
  let chunklen : Nat := 8 + 8 + CarState.SerializedSize + ctrlChunk.length + yuvcklen
  cycfTag ++ le32 chunklen ++ le32 sec ++ le32 usec ++
  CarState.Serialize enc s ++ ctrlChunk ++
  (y420Tag ++ le32 yuvcklen ++ le16 640 ++ buf)

/-- Modelled from the spec: the per-tick inputs Driver::OnControlFrame reads
from external collaborators. `wheel` is CarHW::GetWheelMotion's output, some
(ds, v) when the hardware wheel signal is available. `ctrl` models
DriveController::GetControl, whose definition is outside this repository's
sources: some (u_a, u_s) when it returns true having stored new commands,
none when it declines, in which case (per the spec) it leaves the in-out
command pair untouched. -/
structure ControlInputs where
  accel : V3
  gyro : V3
  wheel : Option (ℚ × ℚ)
  ctrl : Option (ℚ × ℚ)
  dt : ℚ
deriving DecidableEq

/-- Truncation toward zero of a rational, the conversion a C float-to-int8_t
assignment performs (for in-range values). -/
def ratTrunc (q : ℚ) : Int := Int.tdiv q.num (q.den : Int)

/-- Driver::OnControlFrame from driver.cc. Returns the updated driver state
and the actuator write: some (leds, u_a, u_s) when SetControls was invoked,
none otherwise. The inner guard reproduces the source's
`fabsf(carstate_.gyro[2] > 0.1)` literally: the comparison produces 0.0 or
1.0, fabsf of that is tested for nonzero. -/
def OnControlFrame (inp : ControlInputs) (st : DriverState) :
    DriverState × Option (Nat × ℚ × ℚ) :=
  let gyro_last := V3.add (V3.smul (19/20) st.gyro_last) (V3.smul (1/20) inp.gyro)
  let cgyro := V3.sub inp.gyro st.gyro_bias
  let cs0 := { st.carstate with accel := inp.accel, gyro := cgyro }
  let wheel_v : ℚ :=
    match inp.wheel with
    | some (_ds, v) => v
    | none =>
      let w := (19/20) * (cs0.wheel_v - (49/5) * cs0.accel.y * inp.dt)
      if |(if cgyro.z > 1/10 then (1 : ℚ) else 0)| ≠ 0 then
        w + (1/20) * |cs0.accel.x / cgyro.z|
      else w
  let cs1 := { cs0 with wheel_v := wheel_v }
  let u_a0 : ℚ := (cs1.throttle : ℚ) / 127
  let u_s0 : ℚ := (cs1.steering : ℚ) / 127
  let p : ℚ × ℚ :=
    match inp.ctrl with
    | some q => q
    | none => (u_a0, u_s0)
  let act : Option (Nat × ℚ × ℚ) :=
    match inp.ctrl with
    | some _ =>
      some (Nat.lor (Nat.land st.frame 4) (if IsRecording st then 2 else 0), p.1, p.2)
    | none => none
  let cs2 := { cs1 with throttle := ratTrunc (127 * p.1), steering := ratTrunc (127 * p.2) }
  ({ st with carstate := cs2, gyro_last := gyro_last }, act)

/-- The home/calibration branch of Driver::OnButtonPress ('H'): SetHome the
car state and capture the low-pass-filtered gyro as the new bias. -/
def OnButtonHome (st : DriverState) : DriverState :=
  { st with carstate := CarState.SetHome st.carstate, gyro_bias := st.gyro_last }

/-- Driver::OnCameraFrame / UpdateFromCamera: bump the frame counter, let the
ceiling tracker (an external collaborator) refine the pose in place (`newPose`
is its output), and if recording with the skip threshold passed, reset the
counter and queue one recording chunk. -/
def OnCameraFrame (enc : ℚ → List Nat) (newPose : V3) (buf ctrlChunk : List Nat)
    (sec usec : Nat) (st : DriverState) : DriverState :=
  let st1 := { st with frame := st.frame + 1,
                       carstate := { st.carstate with ceiltrack_pos := newPose } }
  match st1.output_fd with
  | some fd =>
    if st1.frame > st1.frameskip then
      { st1 with frame := 0,
                 writes := st1.writes ++
                   [FlushEntry.data fd (QueueRecordingData enc sec usec st1.carstate ctrlChunk buf)] }
    else st1
  | none => st1

/-- One invocation of a core entry point, with the external inputs it consumes. -/
inductive DriverOp where
  | control (inp : ControlInputs)
  | buttonHome
  | camera (newPose : V3) (buf ctrlChunk : List Nat) (sec usec : Nat)
  | startRec (openResult : Option Nat) (cfgHeader : List Nat) (fs : Nat)
  | stopRec
deriving DecidableEq

def applyOp (enc : ℚ → List Nat) (st : DriverState) (op : DriverOp) : DriverState :=
  match op with
  | DriverOp.control inp => (OnControlFrame inp st).1
  | DriverOp.buttonHome => OnButtonHome st
  | DriverOp.camera p buf ctrl sec usec => OnCameraFrame enc p buf ctrl sec usec st
  | DriverOp.startRec o h fs => (StartRecording o h fs st).2
  | DriverOp.stopRec => StopRecording st

/-- Run a sequence of core operations from the constructor state. -/
def runOps (enc : ℚ → List Nat) (ops : List DriverOp) : DriverState :=
  ops.foldl (applyOp enc) initState

/-! ## Helper lemmas -/

lemma ratTrunc_intCast (t : Int) : ratTrunc ((t : ℚ)) = t := by
  simp [ratTrunc, Rat.num_intCast, Rat.den_intCast]

lemma mul_div_127 (t : Int) : (127 : ℚ) * ((t : ℚ) / 127) = (t : ℚ) := by
  field_simp

lemma fieldAt_append (pre mid post : List Nat) (off n : Nat)
    (h1 : pre.length = off) (h2 : mid.length = n) :
    fieldAt (pre ++ (mid ++ post)) off n = mid := by
  unfold fieldAt
  rw [List.drop_left' h1, List.take_left' h2]

lemma fieldAt_append_right (pre mid : List Nat) (off n : Nat)
    (h1 : pre.length = off) (h2 : mid.length = n) :
    fieldAt (pre ++ mid) off n = mid := by
  unfold fieldAt
  rw [List.drop_left' h1, ← h2, List.take_length]

lemma readLE32_le32 (n : Nat) (h : n < 4294967296) : readLE32 (le32 n) = n := by
  simp only [readLE32, le32]
  omega

/-! ## Claim C4: encoder pass-through -/

/-- C4: on every control tick with dt ≥ 0 on which the hardware wheel signal
is available, the stored wheel_v equals the hardware-reported velocity
exactly, whatever the accelerometer and gyro read. -/
theorem wheel_v_passthrough (inp : ControlInputs) (st : DriverState) (ds v : ℚ)
    (_hdt : 0 ≤ inp.dt) (hw : inp.wheel = some (ds, v)) :
    ((OnControlFrame inp st).1).carstate.wheel_v = v := by
  simp [OnControlFrame, hw]

/-- A concrete tick with the hardware wheel signal available. -/
def tickEncoder : ControlInputs :=
  { accel := ⟨3, 4, 5⟩, gyro := ⟨6, 7, 8⟩, wheel := some (2, 9), ctrl := none, dt := 1/100 }

theorem wheel_v_passthrough_witness :
    (0 : ℚ) ≤ tickEncoder.dt ∧
    ((OnControlFrame tickEncoder initState).1).carstate.wheel_v = 9 :=
  ⟨by norm_num [tickEncoder],
   wheel_v_passthrough tickEncoder initState 2 9 (by norm_num [tickEncoder]) rfl⟩

/-! ## Claim C8: SetHome restores the home pose and nothing else -/

/-- C8: for every prior car state, SetHome() sets the tracked pose to exactly
the configured home coordinates and leaves every other vehicle-state field
unchanged; it neither reads nor writes the gyro bias (which is not part of
CarState and does not appear in SetHome at all). -/
theorem SetHome_exact (s : CarState) :
    (CarState.SetHome s).ceiltrack_pos = ⟨CEILHOME_X, CEILHOME_Y, CEILHOME_THETA⟩ ∧
    (CarState.SetHome s).accel = s.accel ∧
    (CarState.SetHome s).gyro = s.gyro ∧
    (CarState.SetHome s).throttle = s.throttle ∧
    (CarState.SetHome s).steering = s.steering ∧
    (CarState.SetHome s).wheel_dist = s.wheel_dist ∧
    (CarState.SetHome s).wheel_v = s.wheel_v :=
  ⟨rfl, rfl, rfl, rfl, rfl, rfl, rfl⟩

/-! ## Claim C7: corrected gyro subtracts the bias from the raw reading -/

/-- C7: the corrected gyro stored each control tick is the raw reading minus
the captured bias (not the low-pass-filtered reading minus the bias); after
the home-button calibration captures the filtered value, a tick whose raw
reading equals that captured value stores exactly (0, 0, 0). -/
theorem corrected_gyro_raw_minus_bias (inp : ControlInputs) (st : DriverState) :
    ((OnControlFrame inp st).1).carstate.gyro = V3.sub inp.gyro st.gyro_bias ∧
    (inp.gyro = st.gyro_last →
      ((OnControlFrame inp (OnButtonHome st)).1).carstate.gyro = V3.zero) := by
  constructor
  · rfl
  · intro h
    simp [OnControlFrame, OnButtonHome, V3.sub, V3.zero, h]

/-- A concrete tick whose raw gyro reading equals the filtered value captured
below as the bias. -/
def tickAtRest : ControlInputs :=
  { accel := V3.zero, gyro := ⟨1/100, -(1/50), 3/100⟩, wheel := none, ctrl := none, dt := 0 }

/-- A driver state whose low-pass-filtered gyro reads (0.01, -0.02, 0.03). -/
def restState : DriverState :=
  { initState with gyro_last := ⟨1/100, -(1/50), 3/100⟩ }

theorem corrected_gyro_raw_minus_bias_witness :
    ((OnControlFrame tickAtRest restState).1).carstate.gyro =
      V3.sub tickAtRest.gyro restState.gyro_bias ∧
    ((OnControlFrame tickAtRest (OnButtonHome restState)).1).carstate.gyro = V3.zero :=
  ⟨(corrected_gyro_raw_minus_bias tickAtRest restState).1,
   (corrected_gyro_raw_minus_bias tickAtRest restState).2 rfl⟩

/-! ## Claim C3: declined control holds the previous commands -/

/-- C3: on a control tick where the external controller declines to produce a
new command, no actuator write occurs and the stored 8-bit throttle and
steering values after the tick equal their values before the tick. -/
theorem declined_control_holds (inp : ControlInputs) (st : DriverState)
    (hc : inp.ctrl = none) :
    ((OnControlFrame inp st).1).carstate.throttle = st.carstate.throttle ∧
    ((OnControlFrame inp st).1).carstate.steering = st.carstate.steering ∧
    (OnControlFrame inp st).2 = none := by
  have ht : ratTrunc (127 * ((st.carstate.throttle : ℚ) / 127)) = st.carstate.throttle := by
    rw [mul_div_127, ratTrunc_intCast]
  have hs : ratTrunc (127 * ((st.carstate.steering : ℚ) / 127)) = st.carstate.steering := by
    rw [mul_div_127, ratTrunc_intCast]
  refine ⟨?_, ?_, ?_⟩ <;> simp [OnControlFrame, hc, ht, hs]

/-- A concrete tick on which the controller declines, in a state with
negative previous commands. -/
def tickDeclined : ControlInputs :=
  { accel := ⟨1, 2, 3⟩, gyro := ⟨4, 5, 6⟩, wheel := none, ctrl := none, dt := 1/100 }

/-- A driver state holding previously commanded throttle 55 and steering -17. -/
def heldState : DriverState :=
  { initState with carstate := { CarState.init with throttle := 55, steering := -17 } }

theorem declined_control_holds_witness :
    ((OnControlFrame tickDeclined heldState).1).carstate.throttle = 55 ∧
    ((OnControlFrame tickDeclined heldState).1).carstate.steering = -17 ∧
    (OnControlFrame tickDeclined heldState).2 = none :=
  declined_control_holds tickDeclined heldState rfl

/-! ## Claim C9: StartRecording failure and success behaviour -/

/-- C9: if the destination cannot be opened, StartRecording returns false,
recording stays disabled and nothing is written; if it opens, StartRecording
immediately writes the serialized-configuration header record, returns true
and enables recording. -/
theorem StartRecording_contract (cfg : List Nat) (fs : Nat) (st : DriverState) (fd : Nat) :
    (StartRecording none cfg fs st).1 = false ∧
    IsRecording (StartRecording none cfg fs st).2 = false ∧
    (StartRecording none cfg fs st).2.writes = st.writes ∧
    (StartRecording (some fd) cfg fs st).1 = true ∧
    IsRecording (StartRecording (some fd) cfg fs st).2 = true ∧
    (StartRecording (some fd) cfg fs st).2.writes = st.writes ++ [FlushEntry.data fd cfg] :=
  ⟨rfl, rfl, rfl, rfl, rfl, rfl⟩

/-! ## Claim C1: the inertial-fallback yaw-rate guard tests the sign, not the
magnitude -/

/-- A fallback tick with yaw rate -0.5 (magnitude well above the 0.1
threshold) and longitudinal acceleration 1, so the claimed correction term
would be 0.05 * |1 / -0.5| = 1/10. -/
def tickNegativeYaw : ControlInputs :=
  { accel := ⟨1, 0, 0⟩, gyro := ⟨0, 0, -(1/2)⟩, wheel := none, ctrl := none, dt := 0 }

/-- A driver state with zero gyro bias and wheel_v = 1. -/
def movingState : DriverState :=
  { initState with carstate := { CarState.init with wheel_v := 1 } }

/-- C1 failing-input evaluation: with corrected yaw rate -1/2, whose magnitude
exceeds the threshold 1/10, the code leaves wheel_v at the decayed value
19/20 alone — the additive correction 0.05*|accel_x / gyro_z| = 1/10 claimed
for every |yaw| > 0.1 is not applied, because the source's guard
`fabsf(gyro[2] > 0.1)` tests the sign of the yaw rate, not its magnitude. -/
theorem fallback_guard_sign_slip :
    |tickNegativeYaw.gyro.z - movingState.gyro_bias.z| > 1/10 ∧
    ((OnControlFrame tickNegativeYaw movingState).1).carstate.wheel_v = 19/20 ∧
    (19/20 : ℚ) ≠ 19/20 +
      (1/20) * |tickNegativeYaw.accel.x / (tickNegativeYaw.gyro.z - movingState.gyro_bias.z)| := by
  refine ⟨?_, ?_, ?_⟩
  · simp only [tickNegativeYaw, movingState, initState, V3.zero]
    rw [show (-(1/2) - 0 : ℚ) = -(1/2) by ring, abs_neg, abs_of_pos] <;> norm_num
  · simp only [OnControlFrame, tickNegativeYaw, movingState, initState, CarState.init,
      CarState.SetHome, V3.sub, V3.zero, V3.add, V3.smul]
    norm_num
  · simp only [tickNegativeYaw, movingState, initState, V3.zero]
    rw [show ((1 : ℚ) / (-(1/2) - 0)) = -2 by norm_num, abs_neg, abs_of_pos] <;> norm_num

/-! ## Claim C6: fallback-only ticks with zero acceleration never grow wheel_v -/

/-- A sequence of control ticks, threading the driver state. -/
def runTicks (l : List ControlInputs) (st : DriverState) : DriverState :=
  l.foldl (fun s i => (OnControlFrame i s).1) st

lemma fallback_zero_accel_step (inp : ControlInputs) (st : DriverState)
    (hw : inp.wheel = none) (ha : inp.accel = V3.zero) :
    |((OnControlFrame inp st).1).carstate.wheel_v| ≤ |st.carstate.wheel_v| := by
  simp only [OnControlFrame, hw, ha, V3.zero]
  have hb : ∀ b : ℚ, b = (19/20) * st.carstate.wheel_v →
      |b| ≤ |st.carstate.wheel_v| := by
    intro b hbeq
    rw [hbeq, abs_mul, abs_of_pos (by norm_num : (0:ℚ) < 19/20)]
    exact mul_le_of_le_one_left (abs_nonneg _) (by norm_num)
  split
  · apply hb
    simp
  · apply hb
    simp

/-- C6: over every sequence of fallback-only control ticks (no hardware wheel
signal) whose acceleration input is zero, the magnitude of wheel_v is
non-increasing: each tick decays it by 0.95 and the additive correction term
contributes nothing. -/
theorem fallback_decay_nonincreasing (l : List ControlInputs) (st : DriverState)
    (h : ∀ i ∈ l, i.wheel = none ∧ i.accel = V3.zero) :
    |(runTicks l st).carstate.wheel_v| ≤ |st.carstate.wheel_v| := by
  induction l generalizing st with
  | nil => simp [runTicks]
  | cons i t ih =>
    have hi := h i (List.mem_cons_self i t)
    have ht : ∀ j ∈ t, j.wheel = none ∧ j.accel = V3.zero :=
      fun j hj => h j (List.mem_cons_of_mem _ hj)
    calc |(runTicks (i :: t) st).carstate.wheel_v|
        = |(runTicks t ((OnControlFrame i st).1)).carstate.wheel_v| := by
          simp [runTicks]
      _ ≤ |((OnControlFrame i st).1).carstate.wheel_v| := ih _ ht
      _ ≤ |st.carstate.wheel_v| := fallback_zero_accel_step i st hi.1 hi.2

/-- Two concrete fallback-only zero-acceleration ticks. -/
def coastTicks : List ControlInputs :=
  [{ accel := V3.zero, gyro := ⟨0, 0, 3⟩, wheel := none, ctrl := none, dt := 1/100 },
   { accel := V3.zero, gyro := ⟨0, 0, -3⟩, wheel := none, ctrl := none, dt := 1/100 }]

/-- A driver state coasting backwards at wheel_v = -4. -/
def coastState : DriverState :=
  { initState with carstate := { CarState.init with wheel_v := -4 } }

theorem fallback_decay_nonincreasing_witness :
    |(runTicks coastTicks coastState).carstate.wheel_v| ≤ |coastState.carstate.wheel_v| :=
  fallback_decay_nonincreasing coastTicks coastState (by decide)

/-! ## Claim C2: serialization round-trip -/

lemma list_len4 (l : List Nat) (h : l.length = 4) : ∃ a b c d, l = [a, b, c, d] := by
  match l, h with
  | [a, b, c, d], _ => exact ⟨a, b, c, d, rfl⟩

/-- C2 (amended): for every assignment of values to the vehicle-state fields,
Serialize writes a record beginning with the 4-byte tag and 4-byte length
followed by the fields in a fixed order, returns a byte count equal to
SerializedSize(), and parsing that record back with the documented
chunk-header layout recovers the exact same 10 enumerated fields
byte-for-byte. -/
theorem serialize_roundtrip (enc : ℚ → List Nat) (henc : ∀ q, (enc q).length = 4)
    (s : CarState) :
    (CarState.Serialize enc s).length = CarState.SerializedSize ∧
    parseCSt1 (CarState.Serialize enc s) = some (fieldChunks enc s) := by
  obtain ⟨a1, a2, a3, a4, hax⟩ := list_len4 _ (henc s.accel.x)
  obtain ⟨b1, b2, b3, b4, hay⟩ := list_len4 _ (henc s.accel.y)
  obtain ⟨c1, c2, c3, c4, haz⟩ := list_len4 _ (henc s.accel.z)
  obtain ⟨d1, d2, d3, d4, hgx⟩ := list_len4 _ (henc s.gyro.x)
  obtain ⟨e1, e2, e3, e4, hgy⟩ := list_len4 _ (henc s.gyro.y)
  obtain ⟨f1, f2, f3, f4, hgz⟩ := list_len4 _ (henc s.gyro.z)
  obtain ⟨g1, g2, g3, g4, hwd⟩ := list_len4 _ (henc s.wheel_dist)
  obtain ⟨k1, k2, k3, k4, hwv⟩ := list_len4 _ (henc s.wheel_v)
  rw [CarState.Serialize, fieldChunks, hax, hay, haz, hgx, hgy, hgz, hwd, hwv]
  exact ⟨rfl, rfl⟩

/-- The all-zero-bytes float encoding, used for concrete evaluations. -/
def encZero : ℚ → List Nat := fun _ => [0, 0, 0, 0]

/-- A car state with negative throttle and steering commands. -/
def negCommandState : CarState :=
  { CarState.init with throttle := -90, steering := -1 }

theorem serialize_roundtrip_witness :
    (CarState.Serialize encZero negCommandState).length = CarState.SerializedSize ∧
    parseCSt1 (CarState.Serialize encZero negCommandState) =
      some (fieldChunks encZero negCommandState) :=
  serialize_roundtrip encZero (fun _ => rfl) negCommandState

/-- C2 counterexample to the claim as stated: parsing a serialized record
recovers exactly the record's field list, and that list enumerates 10 fields
(throttle, steering, three accel components, three gyro components,
wheel_dist, wheel_v), not 18 as the claim asserts. -/
theorem serialize_field_count_not_18 :
    parseCSt1 (CarState.Serialize encZero CarState.init) =
      some (fieldChunks encZero CarState.init) ∧
    (fieldChunks encZero CarState.init).length = 10 ∧
    (fieldChunks encZero CarState.init).length ≠ 18 :=
  ⟨rfl, rfl, by decide⟩

/-! ## Claim C5: recording-frame chunk layout -/

lemma fieldAt_start (mid post : List Nat) (n : Nat) (h : mid.length = n) :
    fieldAt (mid ++ post) 0 n = mid := by
  unfold fieldAt
  rw [List.drop_zero, List.take_left' h]

lemma serialize_length (enc : ℚ → List Nat) (henc : ∀ q, (enc q).length = 4)
    (s : CarState) : (CarState.Serialize enc s).length = 42 := by
  simp [CarState.Serialize, cst1Tag, le32, List.length_append, henc]

/-- C5: every queued recording frame is one chunked record: a CYCF tag, a
4-byte little-endian total length inclusive of the 8-byte chunk header, an
8-byte (seconds, microseconds) timestamp, then the vehicle-state sub-chunk,
the controller-state sub-chunk, and a Y420 sub-chunk whose length field is
the input buffer length plus 10 and which carries the 2-byte width field 640
before the raw camera bytes. -/
theorem queueRecordingData_layout (enc : ℚ → List Nat)
    (henc : ∀ q, (enc q).length = 4) (sec usec : Nat) (s : CarState)
    (ctrlChunk buf : List Nat)
    (hrec : 68 + ctrlChunk.length + buf.length < 4294967296) :
    ∀ r, r = QueueRecordingData enc sec usec s ctrlChunk buf →
    r.length = 68 + ctrlChunk.length + buf.length ∧
    fieldAt r 0 4 = cycfTag ∧
    readLE32 (fieldAt r 4 4) = r.length ∧
    fieldAt r 8 8 = le32 sec ++ le32 usec ∧
    fieldAt r 16 CarState.SerializedSize = CarState.Serialize enc s ∧
    fieldAt r 58 ctrlChunk.length = ctrlChunk ∧
    fieldAt r (58 + ctrlChunk.length) 4 = y420Tag ∧
    readLE32 (fieldAt r (62 + ctrlChunk.length) 4) = buf.length + 10 ∧
    fieldAt r (66 + ctrlChunk.length) 2 = le16 640 ∧
    fieldAt r (68 + ctrlChunk.length) buf.length = buf := by
  have hser := serialize_length enc henc s
  intro r hr
  have hlen : r.length = 68 + ctrlChunk.length + buf.length := by
    subst hr
    simp [QueueRecordingData, List.length_append, cycfTag, le32, le16, y420Tag, hser]
    omega
  refine ⟨hlen, ?_, ?_, ?_, ?_, ?_, ?_, ?_, ?_, ?_⟩
  · have hre : r = cycfTag ++ (le32 (8 + 8 + CarState.SerializedSize + ctrlChunk.length + (buf.length + 8 + 2)) ++ (le32 sec ++ (le32 usec ++
        (CarState.Serialize enc s ++ (ctrlChunk ++ (y420Tag ++ (le32 (buf.length + 8 + 2) ++ (le16 640 ++ buf)))))))) := by
      rw [hr]; simp [QueueRecordingData, List.append_assoc]
    rw [hre]
    exact fieldAt_start _ _ _ rfl
  · have hre : r = cycfTag ++ (le32 (8 + 8 + CarState.SerializedSize + ctrlChunk.length + (buf.length + 8 + 2)) ++ (le32 sec ++ (le32 usec ++
        (CarState.Serialize enc s ++ (ctrlChunk ++ (y420Tag ++ (le32 (buf.length + 8 + 2) ++ (le16 640 ++ buf)))))))) := by
      rw [hr]; simp [QueueRecordingData, List.append_assoc]
    have e1 : fieldAt r 4 4 = le32 (8 + 8 + CarState.SerializedSize + ctrlChunk.length + (buf.length + 8 + 2)) := by
      rw [hre]
      exact fieldAt_append _ _ _ _ _ rfl rfl
    rw [e1, readLE32_le32 _ (by simp only [CarState.SerializedSize]; omega), hlen]
    simp only [CarState.SerializedSize]
    omega
  · have hre : r = (cycfTag ++ le32 (8 + 8 + CarState.SerializedSize + ctrlChunk.length + (buf.length + 8 + 2))) ++ ((le32 sec ++ le32 usec) ++
        (CarState.Serialize enc s ++ (ctrlChunk ++ (y420Tag ++ (le32 (buf.length + 8 + 2) ++ (le16 640 ++ buf)))))) := by
      rw [hr]; simp [QueueRecordingData, List.append_assoc]
    rw [hre]
    exact fieldAt_append _ _ _ _ _ rfl rfl
  · have hre : r = (cycfTag ++ le32 (8 + 8 + CarState.SerializedSize + ctrlChunk.length + (buf.length + 8 + 2)) ++ le32 sec ++ le32 usec) ++ (CarState.Serialize enc s ++
        (ctrlChunk ++ (y420Tag ++ (le32 (buf.length + 8 + 2) ++ (le16 640 ++ buf))))) := by
      rw [hr]; simp [QueueRecordingData, List.append_assoc]
    rw [hre]
    exact fieldAt_append _ _ _ _ _ rfl (by rw [hser]; rfl)
  · have hre : r = (cycfTag ++ le32 (8 + 8 + CarState.SerializedSize + ctrlChunk.length + (buf.length + 8 + 2)) ++ le32 sec ++ le32 usec ++ CarState.Serialize enc s) ++
        (ctrlChunk ++ (y420Tag ++ (le32 (buf.length + 8 + 2) ++ (le16 640 ++ buf)))) := by
      rw [hr]; simp [QueueRecordingData, List.append_assoc]
    rw [hre]
    exact fieldAt_append _ _ _ _ _ (by simp [le32, cycfTag, hser]) rfl
  · have hre : r = (cycfTag ++ le32 (8 + 8 + CarState.SerializedSize + ctrlChunk.length + (buf.length + 8 + 2)) ++ le32 sec ++ le32 usec ++ CarState.Serialize enc s ++ ctrlChunk) ++
        (y420Tag ++ (le32 (buf.length + 8 + 2) ++ (le16 640 ++ buf))) := by
      rw [hr]; simp [QueueRecordingData, List.append_assoc]
    rw [hre]
    exact fieldAt_append _ _ _ _ _ (by simp [le32, cycfTag, hser]; omega) rfl
  · have hre : r = (cycfTag ++ le32 (8 + 8 + CarState.SerializedSize + ctrlChunk.length + (buf.length + 8 + 2)) ++ le32 sec ++ le32 usec ++ CarState.Serialize enc s ++ ctrlChunk ++ y420Tag) ++
        (le32 (buf.length + 8 + 2) ++ (le16 640 ++ buf)) := by
      rw [hr]; simp [QueueRecordingData, List.append_assoc]
    have e8 : fieldAt r (62 + ctrlChunk.length) 4 = le32 (buf.length + 8 + 2) := by
      rw [hre]
      exact fieldAt_append _ _ _ _ _ (by simp [le32, cycfTag, y420Tag, hser]; omega) rfl
    rw [e8, readLE32_le32 _ (by omega)]
  · have hre : r = (cycfTag ++ le32 (8 + 8 + CarState.SerializedSize + ctrlChunk.length + (buf.length + 8 + 2)) ++ le32 sec ++ le32 usec ++ CarState.Serialize enc s ++ ctrlChunk ++ y420Tag ++ le32 (buf.length + 8 + 2)) ++
        (le16 640 ++ buf) := by
      rw [hr]; simp [QueueRecordingData, List.append_assoc]
    rw [hre]
    exact fieldAt_append _ _ _ _ _ (by simp [le32, cycfTag, y420Tag, hser]; omega) rfl
  · have hre : r = (cycfTag ++ le32 (8 + 8 + CarState.SerializedSize + ctrlChunk.length + (buf.length + 8 + 2)) ++ le32 sec ++ le32 usec ++ CarState.Serialize enc s ++ ctrlChunk ++ y420Tag ++ le32 (buf.length + 8 + 2) ++ le16 640) ++
        buf := by
      rw [hr]; simp [QueueRecordingData, List.append_assoc]
    rw [hre]
    exact fieldAt_append_right _ _ _ _ (by simp [le32, le16, cycfTag, y420Tag, hser]; omega) rfl

/-- A concrete queued recording frame: timestamp (1, 2), fresh car state, a
3-byte controller chunk, a 2-byte camera buffer. -/
def demoRecord : List Nat :=
  QueueRecordingData encZero 1 2 CarState.init [9, 9, 9] [7, 7]

theorem queueRecordingData_layout_witness :
    demoRecord.length = 73 ∧
    fieldAt demoRecord 0 4 = cycfTag ∧
    readLE32 (fieldAt demoRecord 4 4) = demoRecord.length ∧
    fieldAt demoRecord 8 8 = le32 1 ++ le32 2 ∧
    fieldAt demoRecord 16 CarState.SerializedSize = CarState.Serialize encZero CarState.init ∧
    fieldAt demoRecord 58 3 = [9, 9, 9] ∧
    fieldAt demoRecord 61 4 = y420Tag ∧
    readLE32 (fieldAt demoRecord 65 4) = 12 ∧
    fieldAt demoRecord 69 2 = le16 640 ∧
    fieldAt demoRecord 71 2 = [7, 7] :=
  queueRecordingData_layout encZero (fun _ => rfl) 1 2 CarState.init [9, 9, 9] [7, 7]
    (by decide) demoRecord rfl

/-! ## Claim C10: wheel_dist is never written -/

lemma serialize_wheel_dist_field (enc : ℚ → List Nat)
    (henc : ∀ q, (enc q).length = 4) (s : CarState) :
    fieldAt (CarState.Serialize enc s) 34 4 = enc s.wheel_dist := by
  have hre : CarState.Serialize enc s = (cst1Tag ++ le32 CarState.SerializedSize ++
      [int8Byte s.throttle, int8Byte s.steering] ++ enc s.accel.x ++ enc s.accel.y ++
      enc s.accel.z ++ enc s.gyro.x ++ enc s.gyro.y ++ enc s.gyro.z) ++
      (enc s.wheel_dist ++ enc s.wheel_v) := by
    simp [CarState.Serialize, List.append_assoc]
  rw [hre]
  exact fieldAt_append _ _ _ _ _ (by simp [cst1Tag, le32, List.length_append, henc]) (henc _)

/-- C10: no sequence of core operations (control ticks — including ones where
the hardware wheel interface reports a distance —, camera frames, home-button
calibration, recording start/stop) ever changes wheel_dist from its initial
value 0, and consequently the odometry-distance field of every serialized
vehicle-state record holds the encoding of 0. -/
theorem wheel_dist_never_written (enc : ℚ → List Nat) (ops : List DriverOp) :
    (runOps enc ops).carstate.wheel_dist = 0 ∧
    ((∀ q, (enc q).length = 4) →
      fieldAt (CarState.Serialize enc (runOps enc ops).carstate) 34 4 = enc 0) := by
  have hstep : ∀ (op : DriverOp) (st : DriverState),
      (applyOp enc st op).carstate.wheel_dist = st.carstate.wheel_dist := by
    intro op st
    cases op with
    | control inp => rfl
    | buttonHome => rfl
    | camera p buf ctrl sec usec =>
      cases hfd : st.output_fd with
      | none => simp [applyOp, OnCameraFrame, hfd]
      | some fd =>
        simp only [applyOp, OnCameraFrame, hfd]
        split <;> rfl
    | startRec o h fs => cases o <;> rfl
    | stopRec => cases hfd : st.output_fd <;> simp [applyOp, StopRecording, hfd]
  have hrun : ∀ (l : List DriverOp) (st : DriverState),
      (l.foldl (applyOp enc) st).carstate.wheel_dist = st.carstate.wheel_dist := by
    intro l
    induction l with
    | nil => intro st; rfl
    | cons op t ih => intro st; rw [List.foldl_cons, ih, hstep]
  have h0 : (runOps enc ops).carstate.wheel_dist = 0 := by
    rw [runOps, hrun]; rfl
  refine ⟨h0, fun henc => ?_⟩
  rw [serialize_wheel_dist_field enc henc, h0]

/-- A concrete operation sequence: a tick whose wheel hardware reports
distance 2 and velocity 9, then the home-button calibration. -/
def probeOps : List DriverOp :=
  [DriverOp.control tickEncoder, DriverOp.buttonHome]

theorem wheel_dist_never_written_witness :
    (runOps encZero probeOps).carstate.wheel_dist = 0 ∧
    fieldAt (CarState.Serialize encZero (runOps encZero probeOps).carstate) 34 4 = encZero 0 :=
  ⟨(wheel_dist_never_written encZero probeOps).1,
   (wheel_dist_never_written encZero probeOps).2 (fun _ => rfl)⟩
